import Mathlib

/-!
Verification development for the Wildberries raw-API loader.

Shallow embedding of the loader's core components:
* `scenarios/wb24/client.py`   — offset-paginated fetch (`WB24APIClient.fetch_data`)
* `scenarios/wb17/client.py`   — cursor-paginated fetch (`WB17APIClient.fetch_data`)
* `scenarios/common/transformers.py` — validation/transformation pipeline
* `scenarios/wb24/repositories.py`   — transactional batch insert
* `core/db/connection.py`      — LPID issuance (`generate_lpid`)
* `core/apps.py`               — scenario resolution (`WBApp._load_scenario`)

Remote HTTP endpoints and the database are modelled as explicit parameters:
a scripted list of page responses for the HTTP side, and an explicit state
record for the database side.
-/

namespace RawWBLoader

/-- Python exception taxonomy: the project's own exception classes
(`core/utils/exceptions.py`) together with the builtins the code raises
(`Exception`, `FileNotFoundError`, `ImportError`, `TypeError`,
`AttributeError`, `RuntimeError`) and `pyodbc.DatabaseError`. -/
inductive PyError where
  | apiRequestException (msg : String)
  | loadScenarioException (msg : String)
  | dataProcessingError (msg : String)
  | customValidationError (msg : String)
  | genericException (msg : String)
  | fileNotFoundError (msg : String)
  | importError (msg : String)
  | typeError (msg : String)
  | attributeError (msg : String)
  | databaseError (msg : String)
  | runtimeError (msg : String)
  deriving DecidableEq, Repr

/-- Boolean form of `Except.isOk`. -/
def exceptOk : Except ε α → Bool
  | .ok _ => true
  | .error _ => false

instance [DecidableEq ε] [DecidableEq α] : DecidableEq (Except ε α)
  | .ok a, .ok b =>
    if h : a = b then isTrue (by rw [h]) else isFalse (by simp [h])
  | .error a, .error b =>
    if h : a = b then isTrue (by rw [h]) else isFalse (by simp [h])
  | .ok _, .error _ => isFalse (by simp)
  | .error _, .ok _ => isFalse (by simp)

/-! ## Offset-paginated client (`scenarios/wb24/client.py`)

The remote API is modelled as a script: the list of pages the remote
returns to the successive GET requests, in order.  The model returns the
list of `offset` query parameters sent (one per request issued) together
with the outcome.  The loop in the source is `while True`; running it
against a finite script, exhausting the script can only happen if the
script does not end in a short or empty page, which no theorem below
exercises. -/

/-- One iteration per scripted page.  State: current `offset`, accumulated
`all_products`, and the log of offsets sent so far.  Mirrors the loop body
of `WB24APIClient.fetch_data`:
empty `listGoods` → `APIRequestException("Could not extract data.")`;
short page (`len(products) < limit`) → return accumulated records;
otherwise `offset += len(products)` and request the next page. -/
def wb24FetchLoop (limit : Nat) :
    List (List α) → Nat → List α → List Nat → List Nat × Except PyError (List α)
  | [], _, _, reqs => (reqs, .error (.apiRequestException "script exhausted"))
  | page :: rest, offset, acc, reqs =>
    let reqs' := reqs ++ [offset]
    if page.isEmpty then
      (reqs', .error (.apiRequestException "Could not extract data."))
    else
      let acc' := acc ++ page
      if page.length < limit then
        (reqs', .ok acc')
      else
        wb24FetchLoop limit rest (offset + page.length) acc' reqs'

/-- Model of `WB24APIClient.fetch_data`: `self.offset` starts from the settings
(default 0), `all_products` starts empty. -/
def WB24APIClient.fetch_data (limit : Nat) (initOffset : Nat)
    (pages : List (List α)) : List Nat × Except PyError (List α) :=
  wb24FetchLoop limit pages initOffset [] []

/-! ## Cursor-paginated client (`scenarios/wb17/client.py`)

A card is a loosely-typed record; only the two cursor fields matter for the
pagination loop (`card.get('updatedAt')`, `card.get('nmID')` return `None`
when absent, modelled by `Option`).  `payload` stands for the rest of the
card's content. -/

/-- One product card of the wb17 response. -/
structure Card where
  updatedAt : Option String
  nmID : Option Int
  payload : Nat
  deriving DecidableEq, Repr

/-- One scripted response: `response_data.get('cards', [])` and
`response_data.get('cursor', {}).get('total')`. -/
structure WB17Response where
  cards : List Card
  total : Option Int
  deriving DecidableEq, Repr

/-- Model of `WB17APIClient._is_last_batch`: short page, or page longer than the
reported `cursor.total`. -/
def WB17APIClient.is_last_batch (limit : Nat) (cards : List Card)
    (resp : WB17Response) : Bool :=
  if cards.length < limit then true
  else
    match resp.total with
    | some t => if (cards.length : Int) > t then true else false
    | none => false

/-- One iteration per scripted response.  State: the cursor
(`updated_at`, `nm_id`) sent with the current request, accumulated
`all_cards`, and the log of cursors sent (one entry per request issued).
Mirrors the loop body of `WB17APIClient.fetch_data`:
empty `cards` → `Exception("Could not extract data.")` (a plain builtin
`Exception`, not `APIRequestException`); last batch → return accumulated
cards; otherwise read the next cursor off the page's last card and abort
with the same plain `Exception` when either cursor field is missing.
The loop in the source is `while True`; the script-exhausted branch is
unreachable for scripts ending in a terminating page. -/
def wb17FetchLoop (limit : Nat) :
    List WB17Response → Option String → Option Int → List Card →
    List (Option String × Option Int) →
    List (Option String × Option Int) × Except PyError (List Card)
  | [], _, _, _, reqs => (reqs, .error (.genericException "script exhausted"))
  | resp :: rest, u, n, acc, reqs =>
    let reqs' := reqs ++ [(u, n)]
    if resp.cards.isEmpty then
      (reqs', .error (.genericException "Could not extract data."))
    else
      let acc' := acc ++ resp.cards
      if WB17APIClient.is_last_batch limit resp.cards resp then
        (reqs', .ok acc')
      else
        match resp.cards.getLast? with
        | none => (reqs', .error (.genericException "Could not extract data."))
        | some last =>
          if last.updatedAt.isNone || last.nmID.isNone then
            (reqs', .error (.genericException "Could not extract data."))
          else
            wb17FetchLoop limit rest last.updatedAt last.nmID acc' reqs'

/-- Model of `WB17APIClient.fetch_data`: `updated_at = None`, `nm_id = None`,
`all_cards = []` initially. -/
def WB17APIClient.fetch_data (limit : Nat) (pages : List WB17Response) :
    List (Option String × Option Int) × Except PyError (List Card) :=
  wb17FetchLoop limit pages none none [] []

/-! ## Python values and `_to_json_string`
(`scenarios/common/transformers.py`, `WBDataTransformer._to_json_string`)

A fragment of Python's value universe sufficient for the serialized
sub-fields (objects, arrays, scalars).  `pyStr`/`pyRepr` model Python's
`str()`/`repr()` on this fragment; string `repr` follows CPython's quote
choice (single quotes, switching to double quotes when the string contains
a single quote and no double quote, escaping single quotes otherwise). -/

/-- Single-quote character (apostrophe). -/
def sqChar : Char := Char.ofNat 39

/-- Double-quote character. -/
def dqChar : Char := Char.ofNat 34

/-- Single-quote as a string. -/
def sqStr : String := String.singleton sqChar

/-- Double-quote as a string. -/
def dqStr : String := String.singleton dqChar

/-- Backslash as a string. -/
def bsStr : String := String.singleton (Char.ofNat 92)

/-- Opening curly brace as a string. -/
def lbr : String := String.singleton (Char.ofNat 123)

/-- Closing curly brace as a string. -/
def rbr : String := String.singleton (Char.ofNat 125)

/-- Replace every occurrence of character `c` by `d` (Python's
`str.replace` with a one-character pattern and one-character
replacement). -/
def strMapChar (c d : Char) (s : String) : String :=
  ⟨s.data.map (fun x => if x = c then d else x)⟩

/-- Does the string contain character `c`? -/
def strContains (c : Char) (s : String) : Bool :=
  decide (c ∈ s.data)

/-- Replace every occurrence of character `c` by the two-character
sequence backslash-`c` (Python's `str.replace(c, "\\" + c)`). -/
def strEscapeChar (c : Char) (s : String) : String :=
  ⟨s.data.flatMap (fun x => if x = c then [Char.ofNat 92, c] else [x])⟩

/-- A fragment of Python's value universe. -/
inductive PyVal where
  | none
  | bool (b : Bool)
  | int (n : Int)
  | str (s : String)
  | list (xs : List PyVal)
  | dict (kvs : List (String × PyVal))

/-- Python truthiness (`if field`): `None`, `False`, `0`, `""`, `[]`, `{ }`
are falsy; everything else in the fragment is truthy. -/
def pyTruthy : PyVal → Bool
  | .none => false
  | .bool b => b
  | .int n => decide (n ≠ 0)
  | .str s => !s.isEmpty
  | .list xs => !xs.isEmpty
  | .dict kvs => !kvs.isEmpty

/-- CPython `repr` of a `str` (quote choice and single-quote escaping;
backslash/control escaping is outside the modelled fragment). -/
def pyReprStr (s : String) : String :=
  if strContains sqChar s && !(strContains dqChar s) then dqStr ++ s ++ dqStr
  else sqStr ++ strEscapeChar sqChar s ++ sqStr

mutual

/-- Python `repr` on the fragment. -/
def pyRepr : PyVal → String
  | .none => "None"
  | .bool b => if b then "True" else "False"
  | .int n => toString n
  | .str s => pyReprStr s
  | .list xs => "[" ++ pyReprList xs ++ "]"
  | .dict kvs => lbr ++ pyReprDict kvs ++ rbr

/-- Comma-separated `repr`s of a list's elements. -/
def pyReprList : List PyVal → String
  | [] => ""
  | [x] => pyRepr x
  | x :: y :: xs => pyRepr x ++ ", " ++ pyReprList (y :: xs)

/-- Comma-separated `key: value` `repr`s of a dict's items. -/
def pyReprDict : List (String × PyVal) → String
  | [] => ""
  | [(k, v)] => pyReprStr k ++ ": " ++ pyRepr v
  | (k, v) :: kv :: kvs =>
    pyReprStr k ++ ": " ++ pyRepr v ++ ", " ++ pyReprDict (kv :: kvs)

end

/-- Python `str()` on the fragment: identity on `str`, `repr` elsewhere. -/
def pyStr : PyVal → String
  | .str s => s
  | .none => pyRepr .none
  | .bool b => pyRepr (.bool b)
  | .int n => pyRepr (.int n)
  | .list xs => pyRepr (.list xs)
  | .dict kvs => pyRepr (.dict kvs)

/-- Model of `WBDataTransformer._to_json_string`:
`str(field).replace("'", '"') if field else None`. -/
def WBDataTransformer.to_json_string (field : PyVal) : Option String :=
  if pyTruthy field then some (strMapChar sqChar dqChar (pyStr field))
  else none

/-- The correct JSON rendering of the fragment (what a JSON round-trip
would require): `null`/`true`/`false`, double-quoted strings with
backslash-escaped double quotes, `[...]` arrays, `\x7b...\x7d` objects. -/
def jsonEncodeStr (s : String) : String :=
  dqStr ++ strEscapeChar dqChar (strEscapeChar (Char.ofNat 92) s) ++ dqStr

mutual

/-- Correct JSON encoding of a `PyVal` (comparison definition, written
from the claim's words "valid JSON", not from the source). -/
def jsonEncode : PyVal → String
  | .none => "null"
  | .bool b => if b then "true" else "false"
  | .int n => toString n
  | .str s => jsonEncodeStr s
  | .list xs => "[" ++ jsonEncodeList xs ++ "]"
  | .dict kvs => lbr ++ jsonEncodeDict kvs ++ rbr

/-- Comma-separated JSON encodings of a list's elements. -/
def jsonEncodeList : List PyVal → String
  | [] => ""
  | [x] => jsonEncode x
  | x :: y :: xs => jsonEncode x ++ "," ++ jsonEncodeList (y :: xs)

/-- Comma-separated JSON encodings of a dict's items. -/
def jsonEncodeDict : List (String × PyVal) → String
  | [] => ""
  | [(k, v)] => jsonEncodeStr k ++ ":" ++ jsonEncode v
  | (k, v) :: kv :: kvs =>
    jsonEncodeStr k ++ ":" ++ jsonEncode v ++ "," ++ jsonEncodeDict (kv :: kvs)

end

/-! ## Validation/transformation pipeline
(`scenarios/common/transformers.py`, `WBDataTransformer`)

The pydantic model bound to the transformer is abstracted as a function
`validate : α → Except FieldError β` (the scenario's
`data_model.model_validate`); `toDict` models `model_dump(mode='json')`
and `clean` the scenario's `_clean_data` projection — both total, as in
the source they only raise on internal faults outside the modelled
fragment. -/

/-- The first entry of pydantic's `e.errors()`: the data
`_validate_data` reads (`error.get('msg', ...)`, `error.get('loc', ...)`,
the latter rendered into the message by the f-string). -/
structure FieldError where
  msg : String
  loc : String
  deriving DecidableEq, Repr

/-- Message of a raised exception, i.e. Python `str(e)`. -/
def pyStrOfError : PyError → String
  | .apiRequestException m => m
  | .loadScenarioException m => m
  | .dataProcessingError m => m
  | .customValidationError m => m
  | .genericException m => m
  | .fileNotFoundError m => m
  | .importError m => m
  | .typeError m => m
  | .attributeError m => m
  | .databaseError m => m
  | .runtimeError m => m

/-- Model of `WBDataTransformer._validate_data`: on `ValidationError`, build
`f"{error.get('msg', ...)}: {field_name}"` from the first error and raise
`CustomValidationError` with that message. -/
def WBDataTransformer.validate_data (validate : α → Except FieldError β)
    (record : α) : Except PyError β :=
  match validate record with
  | .ok m => .ok m
  | .error e => .error (.customValidationError (e.msg ++ ": " ++ e.loc))

/-- The per-record loop of `WBDataTransformer.process_data`, accumulating
`processed_data`; any exception from a record aborts with
`DataProcessingError(str(e))`.  After the loop, an empty accumulator is
itself a `DataProcessingError`. -/
def WBDataTransformer.process_data_loop (validate : α → Except FieldError β)
    (toDict : β → γ) (clean : γ → δ) :
    List α → List δ → Except PyError (List δ)
  | [], processed =>
    if processed.isEmpty then
      .error (.dataProcessingError "No data to be inserted in the DB")
    else
      .ok processed
  | record :: rest, processed =>
    match WBDataTransformer.validate_data validate record with
    | .error e => .error (.dataProcessingError (pyStrOfError e))
    | .ok m =>
      WBDataTransformer.process_data_loop validate toDict clean rest
        (processed ++ [clean (toDict m)])

/-- Model of `WBDataTransformer.process_data`. -/
def WBDataTransformer.process_data (validate : α → Except FieldError β)
    (toDict : β → γ) (clean : γ → δ) (data : List α) :
    Except PyError (List δ) :=
  WBDataTransformer.process_data_loop validate toDict clean data []

/-! ## Settings transformer
(`scenarios/common/transformers.py`, `WBAPISettingsTransformer`, and the
defaults of `scenarios/common/models.py`, `WBAPISettingsModel`) -/

/-- Model of `WBAPISettingsModel` with its documented per-field defaults
(`scenarios/common/models.py`).  `backoff_factor` is the exact rational
3/10 standing for the float default `0.3`. -/
structure WBAPISettingsModel where
  load_params_id : Option String := Option.none
  is_test_data : Bool := false
  api_url : Option String := Option.none
  timeout : Int := 30
  max_retries : Int := 5
  backoff_factor : ℚ := 3 / 10
  status_forcelist : List Int := []
  allowed_methods : List String := ["GET", "POST"]
  deriving DecidableEq, Repr

/-- Model of `self.default_model_obj = self.data_model()`: the default-constructed
settings model, as dumped by `_get_default_settings`
(`_model_to_dict(..., mode='python')` is the identity projection here). -/
def WBAPISettingsModel.default_model_obj : WBAPISettingsModel := {}

/-- Model of `WBAPISettingsTransformer.process_data`: `None` row → defaults with a
warning; otherwise `_row_to_dict` + `_validate_data` + dump, falling back
to defaults on any exception.  `validate` composes `_row_to_dict` with the
pydantic `model_validate` of the settings model. -/
def WBAPISettingsTransformer.process_data
    (validate : ρ → Except FieldError WBAPISettingsModel)
    (data : Option ρ) : WBAPISettingsModel :=
  match data with
  | Option.none => WBAPISettingsModel.default_model_obj
  | some row =>
    match WBDataTransformer.validate_data validate row with
    | .ok m => m
    | .error _ => WBAPISettingsModel.default_model_obj

/-! ## Transactional batch insert
(`scenarios/wb24/repositories.py`, `WB24Repository.insert`)

The database is an explicit state: committed rows, the open transaction's
pending rows, the autocommit flag, and the store's own clock
(`SYSUTCDATETIME()`).  Row failure is an oracle `failOn` standing for the
store rejecting an individual row (constraint violation etc.), which
`pyodbc` surfaces as `DatabaseError` out of `executemany`. -/

/-- A database scalar. -/
inductive DBVal where
  | intV (n : Int)
  | boolV (b : Bool)
  | strV (s : String)
  | dttmV (t : Nat)
  | nullV
  deriving DecidableEq, Repr

/-- One destination-table row, in column order. -/
abbrev DBRow := List DBVal

/-- Database connection/session state. -/
structure DBState where
  committed : List DBRow
  pending : List DBRow
  autocommit : Bool
  sysutcdatetime : Nat
  deriving DecidableEq, Repr

/-- Model of `cursor.executemany`: rows enter the open transaction one at a time;
the first failing row raises `DatabaseError`, leaving the earlier rows of
the statement pending (uncommitted). -/
def executemany (failOn : DBRow → Bool) :
    List DBRow → DBState → Except PyError Unit × DBState
  | [], st => (.ok (), st)
  | r :: rs, st =>
    if failOn r then (.error (.databaseError "insert failed"), st)
    else executemany failOn rs { st with pending := st.pending ++ [r] }

/-- Model of `conn.commit()`: pending rows become visible. -/
def commitTx (st : DBState) : DBState :=
  { st with committed := st.committed ++ st.pending, pending := [] }

/-- Model of `conn.rollback()`: pending rows are discarded. -/
def rollbackTx (st : DBState) : DBState :=
  { st with pending := [] }

/-- The `params` comprehension of `WB24Repository.insert`: every tuple
prefixed with `(lpid, is_test_data, collection_start_dttm,
collection_end)`. -/
def WB24Repository.insert_params (lpid : Int) (is_test_data : Bool)
    (collection_start_dttm : String) (collection_end : Nat)
    (data : List (List DBVal)) : List DBRow :=
  data.map (fun item =>
    DBVal.intV lpid :: DBVal.boolV is_test_data ::
    DBVal.strV collection_start_dttm :: DBVal.dttmV collection_end :: item)

/-- Model of `WB24Repository.insert`: disable autocommit, read one
`SYSUTCDATETIME()` from the store, build `params` via `insert_params`,
insert all rows with one `executemany`, commit; on `DatabaseError` roll
back and re-raise; `finally` restore `autocommit = True`. -/
def WB24Repository.insert (failOn : DBRow → Bool) (st : DBState)
    (data : List (List DBVal)) (lpid : Int) (is_test_data : Bool)
    (collection_start_dttm : String) : Except PyError Unit × DBState :=
  let st1 := { st with autocommit := false }
  let collection_end := st1.sysutcdatetime
  let params := WB24Repository.insert_params lpid is_test_data
    collection_start_dttm collection_end data
  match executemany failOn params st1 with
  | (.ok _, st2) =>
    let st3 := commitTx st2
    (.ok (), { st3 with autocommit := true })
  | (.error e, st2) =>
    let st3 := rollbackTx st2
    (.error e, { st3 with autocommit := true })

/-! ## LPID issuance
(`core/db/connection.py`, `DatabaseConnectionManager.generate_lpid`)

The SQL batch is modelled as a straight-line program over the sequence
state, recording the trace of its steps in order.  `lockResult` is the
oracle for `sp_getapplock`'s return value (`>= 0` success, `-1` timeout,
`-2` deadlock-cancel, `-3` error-cancel).  The `THROW` on a negative lock
result surfaces as `pyodbc.DatabaseError`, which the Python wrapper
re-raises as `RuntimeError`. -/

/-- The observable steps of the `generate_lpid` SQL batch. -/
inductive LpidStep where
  | ensureSequenceExists
  | acquireLock
  | drawNextValue
  | releaseLock
  deriving DecidableEq, Repr

/-- Durable sequence state: `Option.none` when `Lpid.LpidSequence` does
not exist; `some v` when its next value is `v`. -/
structure SeqState where
  sequence : Option Nat
  deriving DecidableEq, Repr

/-- The `CASE` classifying a failed `sp_getapplock` result. -/
def lockErrMsg (lockResult : Int) : String :=
  if lockResult = -1 then "Lock timeout expired"
  else if lockResult = -2 then "Canceled (deadlock)"
  else if lockResult = -3 then "Canceled (error)"
  else "Failed to acquire lock"

/-- Model of `DatabaseConnectionManager.generate_lpid`: the SQL batch runs, in
order: (1) `IF NOT EXISTS ... CREATE SEQUENCE Lpid.LpidSequence START
WITH 1 INCREMENT BY 1` (create-if-absent); (2) `EXEC sp_getapplock`;
(3) on a negative lock result, `THROW` → `DatabaseError` →
`RuntimeError`; otherwise (4) `NEXT VALUE FOR Lpid.LpidSequence`,
(5) `sp_releaseapplock`, and the drawn value is returned. -/
def DatabaseConnectionManager.generate_lpid (lockResult : Int)
    (st : SeqState) : List LpidStep × Except PyError Nat × SeqState :=
  let st1 : SeqState :=
    match st.sequence with
    | Option.none => { sequence := some 1 }
    | some _ => st
  let steps := [LpidStep.ensureSequenceExists, LpidStep.acquireLock]
  if lockResult < 0 then
    (steps,
     .error (.runtimeError ("Database error while generating LPID: " ++
       lockErrMsg lockResult)),
     st1)
  else
    match st1.sequence with
    | some v =>
      (steps ++ [LpidStep.drawNextValue, LpidStep.releaseLock],
       .ok v, { sequence := some (v + 1) })
    | Option.none =>
      (steps, .error (.runtimeError "sequence missing"), st1)

/-! ## Scenario resolution (`core/apps.py`, `WBApp`)

Filesystem and module contents are explicit parameters:
`serviceFileExists` for `scenarios/<name>/service.py`, and the module's
class lookup outcome. -/

/-- What `getattr(module, class_name)` / `issubclass` find in the loaded
module. -/
structure ScenarioModule where
  hasServiceClass : Bool
  conformsToWBService : Bool
  deriving DecidableEq, Repr

/-- Model of `WBApp._get_service_file_path`: `FileNotFoundError` when the
scenario's `service.py` is absent. -/
def WBApp.get_service_file_path (serviceFileExists : Bool) :
    Except PyError Unit :=
  if serviceFileExists then .ok ()
  else .error (.fileNotFoundError "Scenario service file not found")

/-- Model of `WBApp._load_spec`: locate the file, then load the module (spec
creation failure for an existing file is outside the modelled domain). -/
def WBApp.load_spec (serviceFileExists : Bool) (m : ScenarioModule) :
    Except PyError ScenarioModule := do
  let _ ← WBApp.get_service_file_path serviceFileExists
  pure m

/-- Model of `WBApp._parse_service_class`: `getattr` failure (`AttributeError`) is
re-raised as `ImportError`; a class not inheriting `WBService` raises
`TypeError`. -/
def WBApp.parse_service_class (m : ScenarioModule) : Except PyError Unit :=
  if m.hasServiceClass then
    if m.conformsToWBService then .ok ()
    else .error (.typeError "Scenario service must inherit from WBService class")
  else .error (.importError "Service class not found in module")

/-- The exception classes named by `_load_scenario`'s
`except (ImportError, AttributeError, TypeError)` clause. -/
def caughtByLoadScenario : PyError → Bool
  | .importError _ => true
  | .attributeError _ => true
  | .typeError _ => true
  | _ => false

/-- Model of `WBApp._load_scenario`: run `_load_spec` + `_parse_service_class`;
wrap only `ImportError`/`AttributeError`/`TypeError` into
`LoadScenarioException`; any other exception propagates unchanged. -/
def WBApp.load_scenario (serviceFileExists : Bool) (m : ScenarioModule)
    (scenario : String) : Except PyError Unit :=
  match (do
      let mod ← WBApp.load_spec serviceFileExists m
      WBApp.parse_service_class mod : Except PyError Unit) with
  | .ok u => .ok u
  | .error e =>
    if caughtByLoadScenario e then
      .error (.loadScenarioException
        ("Failed to load service for scenario " ++ scenario))
    else .error e

/-! ## Theorems -/

/-- C3: with `limit = 1000` and a remote returning pages of sizes
`[1000, 1000, 400]`, `WB24APIClient.fetch_data` issues exactly 3
requests carrying offsets `[0, 1000, 2000]`, returns the 2400 records in
page order, and terminates on the last page because its size is strictly
less than the page limit. -/
theorem wb24_fetch_three_pages (p1 p2 p3 : List Nat)
    (h1 : p1.length = 1000) (h2 : p2.length = 1000) (h3 : p3.length = 400) :
    WB24APIClient.fetch_data 1000 0 [p1, p2, p3] =
      ([0, 1000, 2000], .ok (p1 ++ p2 ++ p3)) ∧
    (p1 ++ p2 ++ p3).length = 2400 ∧
    ([0, 1000, 2000] : List Nat).length = 3 := by
  have e1 : p1.isEmpty = false := by
    cases p1 with
    | nil => simp at h1
    | cons a t => rfl
  have e2 : p2.isEmpty = false := by
    cases p2 with
    | nil => simp at h2
    | cons a t => rfl
  have e3 : p3.isEmpty = false := by
    cases p3 with
    | nil => simp at h3
    | cons a t => rfl
  refine ⟨?_, by simp [h1, h2, h3], by simp⟩
  simp [WB24APIClient.fetch_data, wb24FetchLoop, e1, e2, e3, h1, h2, h3]

/-- Witness for C3 at the concrete pages
`[range 1000, range 1000, range 400]`. -/
theorem wb24_fetch_three_pages_witness :
    WB24APIClient.fetch_data 1000 0
        [List.range 1000, List.range 1000, List.range 400] =
      ([0, 1000, 2000],
       .ok (List.range 1000 ++ List.range 1000 ++ List.range 400)) ∧
    (List.range 1000 ++ List.range 1000 ++ List.range 400).length = 2400 ∧
    ([0, 1000, 2000] : List Nat).length = 3 :=
  wb24_fetch_three_pages (List.range 1000) (List.range 1000) (List.range 400)
    (by simp) (by simp) (by simp)

/-- Reaching an empty page after any number of full pages makes the
offset-paginated fetch fail with `APIRequestException`. -/
theorem wb24FetchLoop_empty_page (limit : Nat) (hl : 0 < limit) :
    ∀ (fulls rest : List (List α)) (offset : Nat) (acc : List α)
      (reqs : List Nat), (∀ p ∈ fulls, p.length = limit) →
      (wb24FetchLoop limit (fulls ++ [] :: rest) offset acc reqs).2 =
        .error (.apiRequestException "Could not extract data.") := by
  intro fulls
  induction fulls with
  | nil => intro rest offset acc reqs _; simp [wb24FetchLoop]
  | cons p fulls ih =>
    intro rest offset acc reqs h
    have hp : p.length = limit := h p (by simp)
    have hne : p.isEmpty = false := by
      cases p with
      | nil => rw [List.length_nil] at hp; omega
      | cons a t => rfl
    simp only [List.cons_append, wb24FetchLoop, hne, Bool.false_eq_true,
      if_false, hp, lt_irrefl]
    exact ih rest (offset + limit) (acc ++ p) (reqs ++ [offset])
      (fun q hq => h q (by simp [hq]))

/-- Reaching an empty page after any number of full, well-cursored pages
makes the cursor-paginated fetch fail with a plain `Exception`. -/
theorem wb17FetchLoop_empty_page (limit : Nat) (hl : 0 < limit) :
    ∀ (fulls : List WB17Response) (t : Option Int)
      (rest : List WB17Response) (u : Option String) (n : Option Int)
      (acc : List Card) (reqs : List (Option String × Option Int)),
      (∀ r ∈ fulls, r.cards.length = limit ∧ r.total = Option.none ∧
        ∃ last, r.cards.getLast? = some last ∧
          last.updatedAt.isSome = true ∧ last.nmID.isSome = true) →
      (wb17FetchLoop limit (fulls ++ ⟨[], t⟩ :: rest) u n acc reqs).2 =
        .error (.genericException "Could not extract data.") := by
  intro fulls
  induction fulls with
  | nil => intro t rest u n acc reqs _; simp [wb17FetchLoop]
  | cons r fulls ih =>
    intro t rest u n acc reqs h
    obtain ⟨hlen, htot, last, hlast, hu, hn⟩ := h r (by simp)
    have hne : r.cards.isEmpty = false := by
      cases hc : r.cards with
      | nil => rw [hc, List.length_nil] at hlen; omega
      | cons a tl => rfl
    have hlb : WB17APIClient.is_last_batch limit r.cards r = false := by
      simp [WB17APIClient.is_last_batch, hlen, htot]
    have hmiss : (last.updatedAt.isNone || last.nmID.isNone) = false := by
      cases hup : last.updatedAt with
      | none => rw [hup] at hu; simp at hu
      | some x =>
        cases hnm : last.nmID with
        | none => rw [hnm] at hn; simp at hn
        | some y => simp [hup, hnm]
    simp only [List.cons_append, wb17FetchLoop, hne, Bool.false_eq_true,
      if_false, hlb, hlast, hmiss]
    exact ih t rest last.updatedAt last.nmID (acc ++ r.cards)
      (reqs ++ [(u, n)]) (fun q hq => h q (by simp [hq]))

/-- Recognizer for `APIRequestException` outcomes. -/
def isApiRequestErr : Except PyError α → Bool
  | .error (.apiRequestException _) => true
  | _ => false

/-- C7 counterexample: on an empty page, the cursor-paginated
`WB17APIClient.fetch_data` raises the plain builtin
`Exception("Could not extract data.")` — not `APIRequestException` —
so the claim that both disciplines raise `ApiRequestError` fails on the
wb17 client. -/
theorem wb17_empty_page_not_apiRequestError :
    (WB17APIClient.fetch_data 3 [⟨[], Option.none⟩]).2 =
      .error (.genericException "Could not extract data.") ∧
    isApiRequestErr (WB17APIClient.fetch_data 3 [⟨[], Option.none⟩]).2 =
      false ∧
    exceptOk (WB17APIClient.fetch_data 3 [⟨[], Option.none⟩]).2 = false := by
  decide

/-- C7 (amended): in both pagination disciplines a page of zero records is
a hard error — the fetch returns no accumulated records; the offset
client (wb24) raises `APIRequestException`, while the cursor client
(wb17) raises a plain builtin `Exception`. -/
theorem empty_page_is_hard_error (limit : Nat) (hl : 0 < limit)
    (fulls24 rest24 : List (List Nat)) (off : Nat)
    (h24 : ∀ p ∈ fulls24, p.length = limit)
    (fulls17 : List WB17Response) (t : Option Int)
    (rest17 : List WB17Response)
    (h17 : ∀ r ∈ fulls17, r.cards.length = limit ∧
      r.total = Option.none ∧ ∃ last, r.cards.getLast? = some last ∧
        last.updatedAt.isSome = true ∧ last.nmID.isSome = true) :
    (WB24APIClient.fetch_data limit off (fulls24 ++ [] :: rest24)).2 =
      .error (.apiRequestException "Could not extract data.") ∧
    (WB17APIClient.fetch_data limit (fulls17 ++ ⟨[], t⟩ :: rest17)).2 =
      .error (.genericException "Could not extract data.") :=
  ⟨wb24FetchLoop_empty_page limit hl fulls24 rest24 off [] [] h24,
   wb17FetchLoop_empty_page limit hl fulls17 t rest17 Option.none
     Option.none [] [] h17⟩

/-- Witness for C7 (amended): one full page then an empty page, in both
disciplines. -/
theorem empty_page_is_hard_error_witness :
    (WB24APIClient.fetch_data 1 0 ([[9]] ++ [] :: [])).2 =
      .error (.apiRequestException "Could not extract data.") ∧
    (WB17APIClient.fetch_data 1
        ([⟨[⟨some "t", some 5, 0⟩], Option.none⟩] ++
          ⟨[], Option.none⟩ :: [])).2 =
      .error (.genericException "Could not extract data.") :=
  empty_page_is_hard_error 1 (by decide) [[9]] [] 0
    (by intro p hp; fin_cases hp; rfl)
    [⟨[⟨some "t", some 5, 0⟩], Option.none⟩] Option.none []
    (by
      intro r hr
      fin_cases hr
      exact ⟨rfl, rfl, ⟨some "t", some 5, 0⟩, rfl, rfl, rfl⟩)

/-- C8: when a full page forces pagination to continue but its last card
is missing the `updatedAt` or `nmID` cursor field, the cursor-paginated
fetch aborts with exactly one request issued — it raises before sending
another HTTP request, discarding the whole fetch. -/
theorem wb17_malformed_cursor_aborts (limit : Nat) (resp : WB17Response)
    (rest : List WB17Response) (last : Card) (hlim : 0 < limit)
    (hfull : resp.cards.length = limit) (htot : resp.total = Option.none)
    (hlast : resp.cards.getLast? = some last)
    (hmiss : last.updatedAt = Option.none ∨ last.nmID = Option.none) :
    WB17APIClient.fetch_data limit (resp :: rest) =
      ([(Option.none, Option.none)],
       .error (.genericException "Could not extract data.")) := by
  have hne : resp.cards.isEmpty = false := by
    cases hc : resp.cards with
    | nil => rw [hc, List.length_nil] at hfull; omega
    | cons a tl => rfl
  have hlb : WB17APIClient.is_last_batch limit resp.cards resp = false := by
    simp [WB17APIClient.is_last_batch, hfull, htot]
  have hm : (last.updatedAt.isNone || last.nmID.isNone) = true := by
    rcases hmiss with h | h <;> simp [h]
  simp [WB17APIClient.fetch_data, wb17FetchLoop, hne, hlb, hlast, hm]

/-- Witness for C8: a single full page whose last card has no
`updatedAt`. -/
theorem wb17_malformed_cursor_aborts_witness :
    WB17APIClient.fetch_data 1
        [⟨[⟨Option.none, some 5, 0⟩], Option.none⟩] =
      ([(Option.none, Option.none)],
       .error (.genericException "Could not extract data.")) :=
  wb17_malformed_cursor_aborts 1 ⟨[⟨Option.none, some 5, 0⟩], Option.none⟩
    [] ⟨Option.none, some 5, 0⟩ (by decide) rfl rfl rfl (Or.inl rfl)

/-- Lemma: `executemany` with no failing row adds all rows to the pending
transaction. -/
theorem executemany_ok (failOn : DBRow → Bool) :
    ∀ (rows : List DBRow) (st : DBState), (∀ r ∈ rows, failOn r = false) →
      executemany failOn rows st =
        (.ok (), { st with pending := st.pending ++ rows }) := by
  intro rows
  induction rows with
  | nil => intro st _; simp [executemany]
  | cons r rows ih =>
    intro st h
    have hr : failOn r = false := h r (by simp)
    rw [executemany, hr]
    simp only [Bool.false_eq_true, if_false]
    rw [ih _ (fun q hq => h q (by simp [hq]))]
    simp

/-- Lemma: `executemany` never changes the committed rows, the autocommit flag
or the store clock — only `pending`. -/
theorem executemany_frame (failOn : DBRow → Bool) :
    ∀ (rows : List DBRow) (st : DBState),
      (executemany failOn rows st).2.committed = st.committed ∧
      (executemany failOn rows st).2.autocommit = st.autocommit ∧
      (executemany failOn rows st).2.sysutcdatetime = st.sysutcdatetime := by
  intro rows
  induction rows with
  | nil => intro st; simp [executemany]
  | cons r rows ih =>
    intro st
    by_cases hr : failOn r = true
    · simp [executemany, hr]
    · rw [executemany]
      simp only [hr, if_false]
      exact ih { st with pending := st.pending ++ [r] }

/-- Lemma: `executemany` raises `DatabaseError` as soon as some row of the
statement fails. -/
theorem executemany_fails (failOn : DBRow → Bool) :
    ∀ (rows : List DBRow) (st : DBState), (∃ r ∈ rows, failOn r = true) →
      (executemany failOn rows st).1 =
        .error (.databaseError "insert failed") := by
  intro rows
  induction rows with
  | nil => intro st h; simp at h
  | cons r rows ih =>
    intro st h
    by_cases hr : failOn r = true
    · simp [executemany, hr]
    · rw [executemany]
      simp only [hr, if_false]
      apply ih
      rcases h with ⟨q, hq, hfq⟩
      rcases List.mem_cons.mp hq with rfl | hq'
      · exact absurd hfq hr
      · exact ⟨q, hq', hfq⟩

/-- With no failing row, `insert` commits the whole prefixed batch and
restores autocommit. -/
theorem wb24_insert_ok (failOn : DBRow → Bool) (st : DBState)
    (data : List (List DBVal)) (lpid : Int) (is_test_data : Bool)
    (start : String) (hp : st.pending = [])
    (hall : ∀ r ∈ WB24Repository.insert_params lpid is_test_data start
      st.sysutcdatetime data, failOn r = false) :
    WB24Repository.insert failOn st data lpid is_test_data start =
      (.ok (), ⟨st.committed ++ WB24Repository.insert_params lpid
        is_test_data start st.sysutcdatetime data, [], true,
        st.sysutcdatetime⟩) := by
  have hE := executemany_ok failOn
    (WB24Repository.insert_params lpid is_test_data start
      st.sysutcdatetime data)
    ⟨st.committed, st.pending, false, st.sysutcdatetime⟩ hall
  simp only [WB24Repository.insert, hE, commitTx]
  simp [hp]

/-- With some failing row, `insert` raises `DatabaseError` and rolls the
transaction back, leaving the committed rows untouched. -/
theorem wb24_insert_err (failOn : DBRow → Bool) (st : DBState)
    (data : List (List DBVal)) (lpid : Int) (is_test_data : Bool)
    (start : String)
    (hfail : ∃ r ∈ WB24Repository.insert_params lpid is_test_data start
      st.sysutcdatetime data, failOn r = true) :
    (WB24Repository.insert failOn st data lpid is_test_data start).1 =
      .error (.databaseError "insert failed") ∧
    (WB24Repository.insert failOn st data lpid is_test_data
      start).2.committed = st.committed ∧
    (WB24Repository.insert failOn st data lpid is_test_data
      start).2.pending = [] := by
  rcases hE : executemany failOn
      (WB24Repository.insert_params lpid is_test_data start
        st.sysutcdatetime data)
      ⟨st.committed, st.pending, false, st.sysutcdatetime⟩ with ⟨res, st2⟩
  have h1 := executemany_fails failOn
    (WB24Repository.insert_params lpid is_test_data start
      st.sysutcdatetime data)
    ⟨st.committed, st.pending, false, st.sysutcdatetime⟩ hfail
  have h2 := (executemany_frame failOn
    (WB24Repository.insert_params lpid is_test_data start
      st.sysutcdatetime data)
    ⟨st.committed, st.pending, false, st.sysutcdatetime⟩).1
  rw [hE] at h1 h2
  simp only at h1 h2
  subst h1
  simp only [WB24Repository.insert, hE, rollbackTx]
  simp [h2]

/-- C1: the batch insert is all-or-nothing — the visible (committed)
rows afterward are either the original ones plus the whole prefixed
batch, or exactly the original ones; and whenever any row of the batch
fails, the insert raises `DatabaseError`, the transaction is rolled back,
and zero rows of the batch are visible. -/
theorem wb24_insert_all_or_nothing (failOn : DBRow → Bool) (st : DBState)
    (data : List (List DBVal)) (lpid : Int) (is_test_data : Bool)
    (start : String) (hp : st.pending = []) :
    ((WB24Repository.insert failOn st data lpid is_test_data
        start).2.committed = st.committed ++
        WB24Repository.insert_params lpid is_test_data start
          st.sysutcdatetime data ∨
     (WB24Repository.insert failOn st data lpid is_test_data
        start).2.committed = st.committed) ∧
    ((∃ r ∈ WB24Repository.insert_params lpid is_test_data start
        st.sysutcdatetime data, failOn r = true) →
      (WB24Repository.insert failOn st data lpid is_test_data start).1 =
        .error (.databaseError "insert failed") ∧
      (WB24Repository.insert failOn st data lpid is_test_data
        start).2.committed = st.committed ∧
      (WB24Repository.insert failOn st data lpid is_test_data
        start).2.pending = []) := by
  by_cases hfail : ∃ r ∈ WB24Repository.insert_params lpid is_test_data
      start st.sysutcdatetime data, failOn r = true
  · have h := wb24_insert_err failOn st data lpid is_test_data start hfail
    exact ⟨Or.inr h.2.1, fun _ => h⟩
  · have hall : ∀ r ∈ WB24Repository.insert_params lpid is_test_data
        start st.sysutcdatetime data, failOn r = false := by
      intro r hr
      by_contra hne
      refine hfail ⟨r, hr, ?_⟩
      revert hne
      cases failOn r <;> simp
    rw [wb24_insert_ok failOn st data lpid is_test_data start hp hall]
    exact ⟨Or.inl rfl, fun hc => absurd hc hfail⟩

/-- Witness for C1: a 50-row batch whose last row fails; the insert
raises `DatabaseError` and zero rows are visible afterward. -/
theorem wb24_insert_all_or_nothing_witness :
    (WB24Repository.insert (fun r => decide (DBVal.intV 49 ∈ r))
        ⟨[], [], true, 7⟩ ((List.range 50).map (fun i => [DBVal.intV i]))
        3 false "2024-01-01T00:00:00").1 =
      .error (.databaseError "insert failed") ∧
    (WB24Repository.insert (fun r => decide (DBVal.intV 49 ∈ r))
        ⟨[], [], true, 7⟩ ((List.range 50).map (fun i => [DBVal.intV i]))
        3 false "2024-01-01T00:00:00").2.committed = [] ∧
    (WB24Repository.insert (fun r => decide (DBVal.intV 49 ∈ r))
        ⟨[], [], true, 7⟩ ((List.range 50).map (fun i => [DBVal.intV i]))
        3 false "2024-01-01T00:00:00").2.pending = [] :=
  (wb24_insert_all_or_nothing (fun r => decide (DBVal.intV 49 ∈ r))
    ⟨[], [], true, 7⟩ ((List.range 50).map (fun i => [DBVal.intV i]))
    3 false "2024-01-01T00:00:00" rfl).2 (by decide)

/-- C4: on a successful batch insert, one collection-end timestamp is
read once from the store itself (`st.sysutcdatetime`, part of the store
state, not any client-side clock), every inserted row carries that
identical value, and every row is prefixed in the order
`(RunID, IsTestData, CollectionStartDttm, CollectionEndDttm)` before the
scenario-specific fields. -/
theorem wb24_insert_single_timestamp (failOn : DBRow → Bool) (st : DBState)
    (data : List (List DBVal)) (lpid : Int) (is_test_data : Bool)
    (start : String) (hp : st.pending = [])
    (hok : ∀ r ∈ WB24Repository.insert_params lpid is_test_data start
      st.sysutcdatetime data, failOn r = false) :
    WB24Repository.insert failOn st data lpid is_test_data start =
      (.ok (), ⟨st.committed ++ WB24Repository.insert_params lpid
        is_test_data start st.sysutcdatetime data, [], true,
        st.sysutcdatetime⟩) ∧
    (∀ row ∈ WB24Repository.insert_params lpid is_test_data start
        st.sysutcdatetime data,
      row.take 4 = [DBVal.intV lpid, DBVal.boolV is_test_data,
        DBVal.strV start, DBVal.dttmV st.sysutcdatetime]) := by
  refine ⟨wb24_insert_ok failOn st data lpid is_test_data start hp hok, ?_⟩
  intro row hrow
  simp only [WB24Repository.insert_params] at hrow
  rcases List.mem_map.mp hrow with ⟨item, _, rfl⟩
  rfl

/-- Witness for C4: a concrete 4-row batch; all four rows share the
store's single timestamp `12345` in position `CollectionEndDttm`. -/
theorem wb24_insert_single_timestamp_witness :
    WB24Repository.insert (fun _ => false) ⟨[], [], true, 12345⟩
        [[DBVal.intV 1], [DBVal.intV 2], [DBVal.intV 3], [DBVal.intV 4]]
        8 false "2024-01-01T00:00:00" =
      (.ok (), ⟨WB24Repository.insert_params 8 false
        "2024-01-01T00:00:00" 12345 [[DBVal.intV 1], [DBVal.intV 2],
          [DBVal.intV 3], [DBVal.intV 4]], [], true, 12345⟩) ∧
    (∀ row ∈ WB24Repository.insert_params 8 false "2024-01-01T00:00:00"
        12345 [[DBVal.intV 1], [DBVal.intV 2], [DBVal.intV 3],
          [DBVal.intV 4]],
      row.take 4 = [DBVal.intV 8, DBVal.boolV false,
        DBVal.strV "2024-01-01T00:00:00", DBVal.dttmV 12345]) :=
  wb24_insert_single_timestamp (fun _ => false) ⟨[], [], true, 12345⟩
    [[DBVal.intV 1], [DBVal.intV 2], [DBVal.intV 3], [DBVal.intV 4]]
    8 false "2024-01-01T00:00:00" rfl (fun _ _ => rfl)


/-- C5 counterexample: the claimed step order puts the lock acquisition
first; the SQL batch of `generate_lpid` in fact runs the
create-if-absent sequence check before acquiring the lock, so on a
concrete successful run the observed trace starts with
`ensureSequenceExists`, not `acquireLock`. -/
theorem generate_lpid_order_cex :
    (DatabaseConnectionManager.generate_lpid 0 ⟨some 41⟩).1 =
      [LpidStep.ensureSequenceExists, LpidStep.acquireLock,
       LpidStep.drawNextValue, LpidStep.releaseLock] ∧
    (DatabaseConnectionManager.generate_lpid 0 ⟨some 41⟩).1 ≠
      [LpidStep.acquireLock, LpidStep.ensureSequenceExists,
       LpidStep.drawNextValue, LpidStep.releaseLock] := by
  decide

/-- C5 (amended): the run-identifier issuance performs its steps in this
order — ensure the durable monotonic sequence exists (create-if-absent,
not recreate; this happens before the lock, not inside the critical
section), then acquire the exclusive named lock, draw the sequence's
next value, and release the lock before returning the identifier; an
existing sequence is not recreated (the returned value continues it). -/
theorem generate_lpid_step_order (lockResult : Int) (st : SeqState)
    (v : Nat) (hseq : st.sequence = some v) (hlock : 0 ≤ lockResult) :
    DatabaseConnectionManager.generate_lpid lockResult st =
      ([LpidStep.ensureSequenceExists, LpidStep.acquireLock,
        LpidStep.drawNextValue, LpidStep.releaseLock],
       .ok v, ⟨some (v + 1)⟩) := by
  have hst : st = ⟨some v⟩ := by
    cases st
    simp_all
  subst hst
  simp [DatabaseConnectionManager.generate_lpid, not_lt.mpr hlock]

/-- Witness for C5 (amended): a successful lock acquisition with the
sequence already at 41 yields LPID 41 and advances the sequence. -/
theorem generate_lpid_step_order_witness :
    DatabaseConnectionManager.generate_lpid 0 ⟨some 41⟩ =
      ([LpidStep.ensureSequenceExists, LpidStep.acquireLock,
        LpidStep.drawNextValue, LpidStep.releaseLock],
       .ok 41, ⟨some 42⟩) :=
  generate_lpid_step_order 0 ⟨some 41⟩ 41 rfl (by decide)

/-- C6: of the three scenario-resolution failure modes, the missing
capability class and the non-conforming class are wrapped into the
single `LoadScenarioException`, but a missing implementation unit
(service file) raises `FileNotFoundError`, which the
`except (ImportError, AttributeError, TypeError)` clause of
`_load_scenario` does not catch — contradicting the claim and the
docstring of `get_service_instance` (`Raises: LoadScenarioException: If
the scenario service cannot be loaded`). -/
theorem load_scenario_file_not_found_unwrapped :
    WBApp.load_scenario false ⟨true, true⟩ "wb99" =
      .error (.fileNotFoundError "Scenario service file not found") ∧
    caughtByLoadScenario
      (.fileNotFoundError "Scenario service file not found") = false ∧
    WBApp.load_scenario true ⟨false, true⟩ "wb99" =
      .error (.loadScenarioException
        "Failed to load service for scenario wb99") ∧
    WBApp.load_scenario true ⟨true, false⟩ "wb99" =
      .error (.loadScenarioException
        "Failed to load service for scenario wb99") := by
  decide

/-- C2: if every record before position `k` validates and record `k`
fails validation, `process_data` raises `DataProcessingError` carrying
the failing record's field path and message, and returns zero canonical
records (the error return is the whole result — no partial batch). -/
theorem process_data_aborts_on_invalid (validate : α → Except FieldError β)
    (toDict : β → γ) (clean : γ → δ) (pre : List α) (bad : α)
    (rest : List α) (e : FieldError)
    (hpre : ∀ r ∈ pre, exceptOk (validate r) = true)
    (hbad : validate bad = .error e) :
    WBDataTransformer.process_data validate toDict clean
        (pre ++ bad :: rest) =
      .error (.dataProcessingError (e.msg ++ ": " ++ e.loc)) := by
  rw [WBDataTransformer.process_data]
  have main : ∀ (p : List α) (acc : List δ),
      (∀ r ∈ p, exceptOk (validate r) = true) →
      WBDataTransformer.process_data_loop validate toDict clean
          (p ++ bad :: rest) acc =
        .error (.dataProcessingError (e.msg ++ ": " ++ e.loc)) := by
    intro p
    induction p with
    | nil =>
      intro acc _
      simp [WBDataTransformer.process_data_loop,
        WBDataTransformer.validate_data, hbad, pyStrOfError]
    | cons r p ih =>
      intro acc h
      have hr := h r (by simp)
      cases hv : validate r with
      | error f => rw [hv] at hr; simp [exceptOk] at hr
      | ok m =>
        simp only [List.cons_append, WBDataTransformer.process_data_loop,
          WBDataTransformer.validate_data, hv]
        exact ih (acc ++ [clean (toDict m)])
          (fun q hq => h q (by simp [hq]))
  exact main pre [] hpre

/-- Witness for C2: a 4-record batch whose third record fails validation
on field `price`. -/
theorem process_data_aborts_on_invalid_witness :
    WBDataTransformer.process_data
        (fun n : Nat => if n = 3 then
          .error ⟨"Input should be a valid integer", "price"⟩
          else .ok n)
        (fun n => n) (fun n => n) ([1, 2] ++ 3 :: [4]) =
      .error (.dataProcessingError
        "Input should be a valid integer: price") :=
  process_data_aborts_on_invalid
    (fun n : Nat => if n = 3 then
      .error ⟨"Input should be a valid integer", "price"⟩ else .ok n)
    (fun n => n) (fun n => n) [1, 2] 3 [4]
    ⟨"Input should be a valid integer", "price"⟩
    (by decide) (by decide)

/-- C9: the settings transformer returns the default-constructed model
(the documented default values) both when no settings row exists
(`None` input — a total function, so no exception is raised) and when
the row exists but fails validation; the defaults are the documented
ones of `WBAPISettingsModel`. -/
theorem settings_defaults_on_missing_or_invalid
    (validate : ρ → Except FieldError WBAPISettingsModel) (row : ρ)
    (e : FieldError) (hrow : validate row = .error e) :
    WBAPISettingsTransformer.process_data validate Option.none =
      WBAPISettingsModel.default_model_obj ∧
    WBAPISettingsTransformer.process_data validate (some row) =
      WBAPISettingsModel.default_model_obj ∧
    WBAPISettingsModel.default_model_obj.load_params_id = Option.none ∧
    WBAPISettingsModel.default_model_obj.is_test_data = false ∧
    WBAPISettingsModel.default_model_obj.api_url = Option.none ∧
    WBAPISettingsModel.default_model_obj.timeout = 30 ∧
    WBAPISettingsModel.default_model_obj.max_retries = 5 ∧
    WBAPISettingsModel.default_model_obj.backoff_factor = 3 / 10 ∧
    WBAPISettingsModel.default_model_obj.status_forcelist = [] ∧
    WBAPISettingsModel.default_model_obj.allowed_methods =
      ["GET", "POST"] := by
  refine ⟨rfl, ?_, rfl, rfl, rfl, rfl, rfl, rfl, rfl, rfl⟩
  simp [WBAPISettingsTransformer.process_data,
    WBDataTransformer.validate_data, hrow]

/-- Witness for C9 at a concrete always-failing validation. -/
theorem settings_defaults_witness :
    WBAPISettingsTransformer.process_data (ρ := Unit)
        (fun _ => .error ⟨"Input should be a valid string", "EndpointUrl"⟩)
        Option.none = WBAPISettingsModel.default_model_obj ∧
    WBAPISettingsTransformer.process_data (ρ := Unit)
        (fun _ => .error ⟨"Input should be a valid string", "EndpointUrl"⟩)
        (some ()) = WBAPISettingsModel.default_model_obj :=
  ⟨(settings_defaults_on_missing_or_invalid
      (fun _ => .error ⟨"Input should be a valid string", "EndpointUrl"⟩)
      () ⟨"Input should be a valid string", "EndpointUrl"⟩ rfl).1,
   (settings_defaults_on_missing_or_invalid
      (fun _ => .error ⟨"Input should be a valid string", "EndpointUrl"⟩)
      () ⟨"Input should be a valid string", "EndpointUrl"⟩ rfl).2.1⟩

/-- Every single quote is gone after the character replacement. -/
theorem strContains_strMapChar_self (c d : Char) (hcd : c ≠ d)
    (s : String) : strContains c (strMapChar c d s) = false := by
  simp only [strContains, strMapChar, decide_eq_false_iff_not]
  intro hc
  rcases List.mem_map.mp hc with ⟨x, _, heq⟩
  by_cases h : x = c
  · rw [if_pos h] at heq
    exact hcd heq.symm
  · rw [if_neg h] at heq
    exact h heq

/-- C10: the nested-field serializer maps each of the falsy values
`None`, `[]`, `\x7b\x7d`, `False`, `0` to `None` (never a `"[]"` or
`"\x7b\x7d"` string), maps every truthy value to Python's `str()`
rendering with every single-quote character replaced by a double quote
(so the output never contains an apostrophe), and on a value containing
an apostrophe the output differs from the value's correct JSON encoding
— it does not round-trip as valid JSON. -/
theorem to_json_string_spec :
    WBDataTransformer.to_json_string PyVal.none = Option.none ∧
    WBDataTransformer.to_json_string (PyVal.list []) = Option.none ∧
    WBDataTransformer.to_json_string (PyVal.dict []) = Option.none ∧
    WBDataTransformer.to_json_string (PyVal.bool false) = Option.none ∧
    WBDataTransformer.to_json_string (PyVal.int 0) = Option.none ∧
    (∀ v : PyVal, pyTruthy v = true →
      WBDataTransformer.to_json_string v =
        some (strMapChar sqChar dqChar (pyStr v))) ∧
    (∀ v : PyVal, ∀ s : String,
      WBDataTransformer.to_json_string v = some s →
      strContains sqChar s = false) ∧
    WBDataTransformer.to_json_string
        (PyVal.list [PyVal.str ("it" ++ sqStr ++ "s")]) =
      some ("[" ++ dqStr ++ "it" ++ dqStr ++ "s" ++ dqStr ++ "]") ∧
    WBDataTransformer.to_json_string
        (PyVal.list [PyVal.str ("it" ++ sqStr ++ "s")]) ≠
      some (jsonEncode (PyVal.list [PyVal.str ("it" ++ sqStr ++ "s")])) := by
  refine ⟨rfl, rfl, rfl, rfl, rfl, ?_, ?_, by decide, by decide⟩
  · intro v hv
    simp [WBDataTransformer.to_json_string, hv]
  · intro v s hs
    rw [WBDataTransformer.to_json_string] at hs
    by_cases hv : pyTruthy v = true
    · rw [hv] at hs
      simp only [if_true, Option.some.injEq] at hs
      subst hs
      exact strContains_strMapChar_self sqChar dqChar (by decide) _
    · have hb : pyTruthy v = false := by
        revert hv
        cases pyTruthy v <;> simp
      rw [hb] at hs
      simp at hs

/-- Witness for C10: a truthy value goes through the quote-replaced
`str()` rendering. -/
theorem to_json_string_spec_witness :
    WBDataTransformer.to_json_string (PyVal.int 5) =
      some (strMapChar sqChar dqChar (pyStr (PyVal.int 5))) :=
  to_json_string_spec.2.2.2.2.2.1 (PyVal.int 5) (by decide)

end RawWBLoader
